import Mathlib

/-!
Verification of the clinxchat-api real-time messaging core.

The definitions below are a shallow embedding of the JavaScript source:
SQL tables become lists of records, `CURRENT_TIMESTAMP` becomes an explicit
`now : Nat` parameter, and each model/controller function is translated
statement by statement from the corresponding function in `src/`.
-/

namespace Clinx

/-- A row of the `messages` table (src/models/messageModel.js). -/
structure Msg where
  id : Nat
  chat_id : Nat
  sender_id : Nat
  message_type : String
  content : Option String
  file_path : Option String
  duration : Option Nat
  created_at : Nat
  delivered_at : Option Nat
  seen_at : Option Nat
deriving DecidableEq

namespace MessageModel

/-- The WHERE clause `chat_id = ? AND sender_id != ? AND seen_at IS NULL`
shared by `markAsSeen` and `getUnreadCount`. -/
def seenPred (chatId userId : Nat) (m : Msg) : Bool :=
  m.chat_id == chatId && m.sender_id != userId && m.seen_at == none

/-- Effect of `MessageModel.markAsSeen` on a single row. -/
def markAsSeenRow (chatId userId now : Nat) (m : Msg) : Msg :=
  if seenPred chatId userId m then { m with seen_at := some now } else m

/-- `MessageModel.markAsSeen`: `UPDATE messages SET seen_at = CURRENT_TIMESTAMP
WHERE chat_id = ? AND sender_id != ? AND seen_at IS NULL` (messageModel.js:54-62). -/
def markAsSeen (chatId userId now : Nat) (msgs : List Msg) : List Msg :=
  msgs.map (markAsSeenRow chatId userId now)

/-- The `affectedRows` count returned by `markAsSeen`. -/
def markAsSeenAffected (chatId userId : Nat) (msgs : List Msg) : Nat :=
  (msgs.filter (seenPred chatId userId)).length

/-- Effect of `MessageModel.setDelivered` on a single row. -/
def setDeliveredRow (messageId now : Nat) (m : Msg) : Msg :=
  if m.id == messageId && m.delivered_at == none then
    { m with delivered_at := some now } else m

/-- `MessageModel.setDelivered`: `UPDATE messages SET delivered_at =
CURRENT_TIMESTAMP WHERE id = ? AND delivered_at IS NULL` (messageModel.js:64-70). -/
def setDelivered (messageId now : Nat) (msgs : List Msg) : List Msg :=
  msgs.map (setDeliveredRow messageId now)

/-- `MessageModel.getUnreadCount`: `SELECT COUNT(*) FROM messages WHERE
chat_id = ? AND sender_id != ? AND seen_at IS NULL` (messageModel.js:75-83). -/
def getUnreadCount (chatId userId : Nat) (msgs : List Msg) : Nat :=
  (msgs.filter (seenPred chatId userId)).length

/-- The WHERE clause of `MessageModel.delete`: `id = ? AND sender_id = ?`. -/
def deleteMatch (id userId : Nat) (m : Msg) : Bool :=
  m.id == id && m.sender_id == userId

/-- `MessageModel.delete`: `DELETE FROM messages WHERE id = ? AND sender_id = ?`;
returns `affectedRows > 0` together with the resulting table (messageModel.js:88-94). -/
def delete (id userId : Nat) (msgs : List Msg) : Bool × List Msg :=
  (!(msgs.filter (deleteMatch id userId)).isEmpty,
   msgs.filter (fun m => !(deleteMatch id userId m)))

end MessageModel

namespace MessageModel

theorem setDeliveredRow_idem (mid t1 t2 : Nat) (m : Msg) :
    setDeliveredRow mid t2 (setDeliveredRow mid t1 m) = setDeliveredRow mid t1 m := by
  by_cases h : (m.id == mid && m.delivered_at == none) = true
  · simp [setDeliveredRow, h]
  · simp [setDeliveredRow, h]

theorem seenPred_markAsSeenRow (c v t : Nat) (m : Msg) :
    seenPred c v (markAsSeenRow c v t m) = false := by
  by_cases h : seenPred c v m = true
  · rw [markAsSeenRow, if_pos h]
    simp [seenPred]
  · rw [markAsSeenRow, if_neg h]
    simpa using h

theorem markAsSeenRow_idem (c v s1 s2 : Nat) (m : Msg) :
    markAsSeenRow c v s2 (markAsSeenRow c v s1 m) = markAsSeenRow c v s1 m := by
  have h := seenPred_markAsSeenRow c v s1 m
  rw [markAsSeenRow, h]
  simp

theorem markAsSeenRow_of_seen (c v s : Nat) (m : Msg) (t : Nat)
    (h : m.seen_at = some t) : markAsSeenRow c v s m = m := by
  simp [markAsSeenRow, seenPred, h]

theorem setDelivered_idem (msgs : List Msg) (mid t1 t2 : Nat) :
    setDelivered mid t2 (setDelivered mid t1 msgs) = setDelivered mid t1 msgs := by
  induction msgs with
  | nil => rfl
  | cons hd tl ih =>
      simp only [setDelivered, List.map_cons] at ih ⊢
      exact congrArg₂ _ (setDeliveredRow_idem mid t1 t2 hd) ih

theorem markAsSeen_idem_list (msgs : List Msg) (c v s1 s2 : Nat) :
    markAsSeen c v s2 (markAsSeen c v s1 msgs) = markAsSeen c v s1 msgs := by
  induction msgs with
  | nil => rfl
  | cons hd tl ih =>
      simp only [markAsSeen, List.map_cons] at ih ⊢
      exact congrArg₂ _ (markAsSeenRow_idem c v s1 s2 hd) ih

theorem markAsSeen_get? (c v s : Nat) (msgs : List Msg) (i : Nat) :
    (markAsSeen c v s msgs).get? i = (msgs.get? i).map (markAsSeenRow c v s) := by
  simp [markAsSeen]

theorem getUnreadCount_markAsSeen (msgs : List Msg) (c v t : Nat) :
    getUnreadCount c v (markAsSeen c v t msgs) = 0 := by
  induction msgs with
  | nil => rfl
  | cons hd tl ih =>
      simp only [markAsSeen, List.map_cons] at ih ⊢
      simp only [getUnreadCount, List.filter_cons] at ih ⊢
      rw [seenPred_markAsSeenRow]
      simpa using ih

/-- C1: delivery-state transitions are idempotent and monotonic — re-running
`setDelivered` on a message is a no-op once `delivered_at` is set (the update is
guarded by `delivered_at IS NULL`), repeating `markAsSeen` for the same
conversation and viewer leaves the store exactly as after the first run, and a
message whose `seen_at` is already set is left completely unchanged by
`markAsSeen`. -/
theorem c1_delivery_transitions_idempotent (msgs : List Msg)
    (mid t1 t2 c v s1 s2 : Nat) :
    setDelivered mid t2 (setDelivered mid t1 msgs) = setDelivered mid t1 msgs ∧
    markAsSeen c v s2 (markAsSeen c v s1 msgs) = markAsSeen c v s1 msgs ∧
    (∀ i m t, msgs.get? i = some m → m.seen_at = some t →
      (markAsSeen c v s1 msgs).get? i = some m) := by
  refine ⟨setDelivered_idem msgs mid t1 t2, markAsSeen_idem_list msgs c v s1 s2, ?_⟩
  intro i m t hi hseen
  rw [markAsSeen_get?, hi, Option.map_some']
  rw [markAsSeenRow_of_seen c v s1 m t hseen]

/-- Demonstration row whose `seen_at` is already set. -/
def demoSeenMsg : Msg :=
  { id := 1, chat_id := 1, sender_id := 3, message_type := "text",
    content := some "hi", file_path := none, duration := none,
    created_at := 0, delivered_at := some 2, seen_at := some 4 }

/-- Demonstration row not yet seen, in chat 1 from sender 3. -/
def demoUnseenMsg : Msg :=
  { id := 2, chat_id := 1, sender_id := 3, message_type := "text",
    content := some "yo", file_path := none, duration := none,
    created_at := 1, delivered_at := none, seen_at := none }

def demoMsgs : List Msg := [demoSeenMsg, demoUnseenMsg]

/-- Witness for C1 at a concrete store: a message already seen at time 4 is
untouched by a later `markAsSeen`. -/
theorem c1_delivery_transitions_idempotent_witness :
    (markAsSeen 1 2 9 demoMsgs).get? 0 = some demoSeenMsg :=
  (c1_delivery_transitions_idempotent demoMsgs 1 0 0 1 2 9 9).2.2 0 demoSeenMsg 4
    rfl rfl

/-- C2: `markAsSeen(C,V)` updates exactly the rows with `chat_id = C`,
`sender_id ≠ V` and `seen_at IS NULL` (setting their `seen_at` to the current
timestamp), leaves every other row unchanged, and afterwards
`getUnreadCount(C,V)` is 0. -/
theorem c2_markAsSeen_bulk_exact (msgs : List Msg) (c v t : Nat) :
    getUnreadCount c v (markAsSeen c v t msgs) = 0 ∧
    (∀ i m, msgs.get? i = some m →
      ¬(m.chat_id = c ∧ m.sender_id ≠ v ∧ m.seen_at = none) →
      (markAsSeen c v t msgs).get? i = some m) ∧
    (∀ i m, msgs.get? i = some m →
      m.chat_id = c → m.sender_id ≠ v → m.seen_at = none →
      (markAsSeen c v t msgs).get? i = some { m with seen_at := some t }) := by
  refine ⟨getUnreadCount_markAsSeen msgs c v t, ?_, ?_⟩
  · intro i m hi hnot
    rw [markAsSeen_get?, hi, Option.map_some']
    have hp : seenPred c v m = false := by
      by_contra hcon
      rw [Bool.not_eq_false] at hcon
      simp only [seenPred, Bool.and_eq_true, beq_iff_eq, bne_iff_ne] at hcon
      exact hnot ⟨hcon.1.1, hcon.1.2, hcon.2⟩
    simp [markAsSeenRow, hp]
  · intro i m hi h1 h2 h3
    rw [markAsSeen_get?, hi, Option.map_some']
    have hp : seenPred c v m = true := by
      simp [seenPred, h1, h2, h3]
    simp [markAsSeenRow, hp]

/-- Witness for C2 at a concrete store: the unseen message in chat 1 gets its
`seen_at` stamped when viewer 2 marks the chat seen. -/
theorem c2_markAsSeen_bulk_exact_witness :
    (markAsSeen 1 2 9 demoMsgs).get? 1 = some { demoUnseenMsg with seen_at := some 9 } :=
  (c2_markAsSeen_bulk_exact demoMsgs 1 2 9).2.2 1 demoUnseenMsg rfl rfl
    (by decide) rfl

/-- C10: `MessageModel.delete(M,U)` removes a message only when `U` is its
sender; when no message with id `M` was sent by `U` it returns `false` and the
table is completely unchanged, rows not matching `(M,U)` always survive, and a
row matching `(M,U)` is removed with a `true` result. -/
theorem c10_delete_only_by_sender (msgs : List Msg) (mid u : Nat) :
    ((∀ m ∈ msgs, m.id = mid → m.sender_id ≠ u) →
      delete mid u msgs = (false, msgs)) ∧
    (∀ m ∈ msgs, m.id ≠ mid ∨ m.sender_id ≠ u → m ∈ (delete mid u msgs).2) ∧
    (∀ m ∈ msgs, m.id = mid → m.sender_id = u →
      (delete mid u msgs).1 = true ∧ m ∉ (delete mid u msgs).2) := by
  refine ⟨?_, ?_, ?_⟩
  · intro h
    have hfilter : msgs.filter (deleteMatch mid u) = [] := by
      rw [List.filter_eq_nil_iff]
      intro m hm
      have : ¬(m.id = mid ∧ m.sender_id = u) := by
        rintro ⟨hid, hs⟩
        exact h m hm hid hs
      simpa [deleteMatch] using this
    have hkeep : msgs.filter (fun m => !(deleteMatch mid u m)) = msgs := by
      rw [List.filter_eq_self]
      intro m hm
      have hor2 : ¬m.id = mid ∨ ¬m.sender_id = u :=
        not_and_or.mp (by rintro ⟨hid, hs⟩; exact h m hm hid hs)
      simpa [deleteMatch] using hor2
    simp [delete, hfilter, hkeep]
  · intro m hm hor
    simp only [delete, List.mem_filter]
    refine ⟨hm, ?_⟩
    have hor2 : ¬m.id = mid ∨ ¬m.sender_id = u :=
      not_and_or.mp (by rintro ⟨hid, hs⟩; rcases hor with h | h; exacts [h hid, h hs])
    simpa [deleteMatch] using hor2
  · intro m hm hid hs
    constructor
    · have hmem : m ∈ msgs.filter (deleteMatch mid u) := by
        rw [List.mem_filter]
        exact ⟨hm, by simp [deleteMatch, hid, hs]⟩
      rcases h : msgs.filter (deleteMatch mid u) with _ | ⟨a, l⟩
      · rw [h] at hmem; cases hmem
      · simp [delete, h]
    · simp [delete, List.mem_filter, deleteMatch, hid, hs]

/-- Witness for C10 at a concrete store: user 99 is not the sender of message 1,
so deleting leaves the table untouched and reports failure. -/
theorem c10_delete_only_by_sender_witness :
    delete 1 99 demoMsgs = (false, demoMsgs) :=
  (c10_delete_only_by_sender demoMsgs 1 99).1 (by decide)

end MessageModel

end Clinx

/-! ### Presence registry (src/services/socketHandler.js)

`onlineUsers` is a JavaScript `Map` keyed by user id only: `onlineUsers.set(userId,
socket.id)` on connect, `onlineUsers.delete(userId)` on disconnect. We embed the
map as an association list with unique keys. -/

namespace socketHandler

/-- The `onlineUsers` map: user id to socket id, one entry per user id. -/
abbrev OnlineUsers := List (Nat × Nat)

/-- `Map.set`: replace the entry for the key if present, else append. -/
def mapSet (k v : Nat) (m : OnlineUsers) : OnlineUsers :=
  if m.any (fun e => e.1 == k) then
    m.map (fun e => if e.1 == k then (k, v) else e)
  else
    m ++ [(k, v)]

/-- `Map.delete`: drop the entry for the key. -/
def mapDelete (k : Nat) (m : OnlineUsers) : OnlineUsers :=
  m.filter (fun e => !(e.1 == k))

/-- `Map.has`. -/
def mapHas (k : Nat) (m : OnlineUsers) : Bool :=
  m.any (fun e => e.1 == k)

/-- Presence broadcasts emitted by the connection handlers. -/
inductive PresenceEv where
  | user_online (userId : Nat)
  | user_offline (userId : Nat)
deriving DecidableEq

/-- The `connection` handler (socketHandler.js:36-56): `onlineUsers.set(userId,
socket.id)` followed by an unconditional `user_online` broadcast. -/
def onConnect (userId socketId : Nat) (onlineUsers : OnlineUsers) :
    OnlineUsers × List PresenceEv :=
  (mapSet userId socketId onlineUsers, [.user_online userId])

/-- The `disconnect` handler (socketHandler.js:172-182): `onlineUsers.delete(userId)`
followed by an unconditional `user_offline` broadcast. -/
def onDisconnect (userId : Nat) (onlineUsers : OnlineUsers) :
    OnlineUsers × List PresenceEv :=
  (mapDelete userId onlineUsers, [.user_offline userId])

/-- `isUserOnline` (socketHandler.js:191-193): `onlineUsers.has(userId)`. -/
def isUserOnline (userId : Nat) (onlineUsers : OnlineUsers) : Bool :=
  mapHas userId onlineUsers

theorem mapHas_mapDelete (k : Nat) (m : OnlineUsers) :
    mapHas k (mapDelete k m) = false := by
  induction m with
  | nil => rfl
  | cons hd tl ih =>
      by_cases h : hd.1 = k
      · simp only [mapDelete, mapHas] at ih ⊢
        simp [h, ih]
      · simp only [mapDelete, List.filter_cons] at ih ⊢
        simp only [mapHas, h] at ih ⊢
        simp [h, ih]

/-- C3 counterexample: user 7 registers two live sessions (socket ids 100 and
200); disconnecting the first one nevertheless broadcasts a `user_offline`
event and the user no longer counts as online, and the second connect had
already re-broadcast `user_online`. This refutes the claimed
last-session-wins behaviour. -/
theorem c3_presence_two_sessions_counterexample :
    (onDisconnect 7 (onConnect 7 200 (onConnect 7 100 []).1).1).2
        = [.user_offline 7] ∧
    isUserOnline 7 (onDisconnect 7 (onConnect 7 200 (onConnect 7 100 []).1).1).1
        = false ∧
    (onConnect 7 200 (onConnect 7 100 []).1).2 = [.user_online 7] := by
  refine ⟨rfl, ?_, rfl⟩
  decide

/-- C3 amended: presence is per-connection over a single-entry-per-user map.
Every connect overwrites the user's registry entry and broadcasts `user_online`;
every disconnect deletes the user's registry entry and broadcasts exactly one
`user_offline` — regardless of how many sessions the user had — after which the
user no longer counts as online. -/
theorem c3_presence_per_connection (users : OnlineUsers) (userId socketId : Nat) :
    (onConnect userId socketId users).2 = [.user_online userId] ∧
    (onDisconnect userId users).2 = [.user_offline userId] ∧
    isUserOnline userId (onDisconnect userId users).1 = false :=
  ⟨rfl, rfl, mapHas_mapDelete userId users⟩

end socketHandler

/-! ### Relational store: chats, groups, teams, invites

Each SQL table referenced by the controllers becomes a list of records inside a
single `Store`; `insertId` counters become explicit `next*` fields. -/

namespace Clinx

inductive Role where
  | admin
  | moderator
  | member
deriving DecidableEq

inductive CType where
  | privateChat
  | groupChat
deriving DecidableEq

inductive ReqStatus where
  | pending
  | approved
  | rejected
deriving DecidableEq

structure User where
  id : Nat
  email : String
deriving DecidableEq

structure Chat where
  id : Nat
  ctype : CType
  group_id : Option Nat
deriving DecidableEq

structure ChatParticipant where
  chat_id : Nat
  user_id : Nat
deriving DecidableEq

structure GroupMember where
  group_id : Nat
  user_id : Nat
  role : Role
deriving DecidableEq

/-- A row of `group_permissions` (src/models/groupModel.js). -/
structure GroupPermissions where
  group_id : Nat
  edit_settings : Bool
  send_message : Bool
  add_members : Bool
  invite_link : Bool
  screenshot_block : Bool
  forward_block : Bool
  copy_paste_block : Bool
  watermark_docs : Bool
  admin_approval : Bool
deriving DecidableEq

structure JoinRequest where
  id : Nat
  group_id : Nat
  user_id : Nat
  status : ReqStatus
deriving DecidableEq

structure Team where
  id : Nat
  owner_id : Nat
  member_limit : Nat
deriving DecidableEq

structure TeamMember where
  team_id : Nat
  user_id : Nat
  role : String
deriving DecidableEq

structure TeamInvite where
  id : Nat
  team_id : Nat
  email : String
  token : Nat
  role : String
  invited_by : Nat
  accepted_at : Option Nat
  expires_at : Nat
deriving DecidableEq

structure Notification where
  user_id : Nat
  ntype : String
deriving DecidableEq

structure Store where
  users : List User
  chats : List Chat
  chat_participants : List ChatParticipant
  messages : List Msg
  group_members : List GroupMember
  group_permissions : List GroupPermissions
  group_join_requests : List JoinRequest
  teams : List Team
  team_members : List TeamMember
  team_invites : List TeamInvite
  notifications : List Notification
  nextChatId : Nat
  nextMessageId : Nat
  nextInviteId : Nat
deriving DecidableEq

/-- Socket.io room keys: `user:<id>`, `group:<id>`, `chat:<id>`. -/
inductive Room where
  | user (id : Nat)
  | group (id : Nat)
  | chat (id : Nat)
deriving DecidableEq

/-- An `io.to(room).emit(event, …)` call performed by a controller. -/
structure Emit where
  room : Room
  event : String
deriving DecidableEq

namespace UserModel

def findById (id : Nat) (st : Store) : Option User :=
  st.users.find? (fun u => u.id == id)

def findByEmail (email : String) (st : Store) : Option User :=
  st.users.find? (fun u => u.email == email)

end UserModel

namespace ChatModel

/-- `SELECT id FROM chat_participants WHERE chat_id = ? AND user_id = ?` (chatModel.js:92-98). -/
def isParticipant (chatId userId : Nat) (st : Store) : Bool :=
  st.chat_participants.any (fun p => p.chat_id == chatId && p.user_id == userId)

/-- `ChatModel.getParticipants` (chatModel.js:79-87), reduced to the user ids. -/
def getParticipants (chatId : Nat) (st : Store) : List Nat :=
  (st.chat_participants.filter (fun p => p.chat_id == chatId)).map (fun p => p.user_id)

def findById (chatId : Nat) (st : Store) : Option Chat :=
  st.chats.find? (fun c => c.id == chatId)

/-- `SELECT * FROM chats WHERE group_id = ? AND type = "group"` (chatModel.js:181-187). -/
def findByGroupId (groupId : Nat) (st : Store) : Option Chat :=
  st.chats.find? (fun c => c.group_id == some groupId && c.ctype == CType.groupChat)

/-- The join condition of `findPrivateChat` (chatModel.js:42-52): a private chat
having both users among its participants. -/
def privateChatPred (u1 u2 : Nat) (st : Store) (c : Chat) : Bool :=
  c.ctype == CType.privateChat
    && st.chat_participants.any (fun p => p.chat_id == c.id && p.user_id == u1)
    && st.chat_participants.any (fun p => p.chat_id == c.id && p.user_id == u2)

def findPrivateChat (u1 u2 : Nat) (st : Store) : Option Nat :=
  (st.chats.find? (privateChatPred u1 u2 st)).map (fun c => c.id)

/-- `ChatModel.createPrivateChat` (chatModel.js:11-37): insert a chat row and the
two participant rows in one transaction. -/
def createPrivateChat (u1 u2 : Nat) (st : Store) : Nat × Store :=
  let chatId := st.nextChatId
  (chatId,
   { st with
       chats := st.chats ++ [{ id := chatId, ctype := CType.privateChat, group_id := none }],
       chat_participants := st.chat_participants ++
         [{ chat_id := chatId, user_id := u1 }, { chat_id := chatId, user_id := u2 }],
       nextChatId := chatId + 1 })

/-- `ChatModel.getOrCreatePrivateChat` (chatModel.js:57-63). -/
def getOrCreatePrivateChat (u1 u2 : Nat) (st : Store) : Nat × Store :=
  match findPrivateChat u1 u2 st with
  | some cid => (cid, st)
  | none => createPrivateChat u1 u2 st

end ChatModel

namespace GroupModel

/-- `SELECT id, role FROM group_members WHERE group_id = ? AND user_id = ?` (groupModel.js:207-213). -/
def isMember (groupId userId : Nat) (st : Store) : Option GroupMember :=
  st.group_members.find? (fun m => m.group_id == groupId && m.user_id == userId)

/-- `GroupModel.isAdmin` (groupModel.js:218-221). -/
def isAdmin (groupId userId : Nat) (st : Store) : Bool :=
  match isMember groupId userId st with
  | some m => m.role == Role.admin
  | none => false

def getPermissions (groupId : Nat) (st : Store) : Option GroupPermissions :=
  st.group_permissions.find? (fun p => p.group_id == groupId)

/-- `INSERT INTO group_members (group_id, user_id, role)` (groupModel.js:126-132).
The table carries `UNIQUE KEY unique_member (group_id, user_id)` (config/db.js:152)
and the model has no try/catch, so the insert throws `ER_DUP_ENTRY` — modelled as
`none` — when the edge already exists. -/
def addMember (groupId userId : Nat) (role : Role) (st : Store) : Option Store :=
  if st.group_members.any (fun m => m.group_id == groupId && m.user_id == userId) then
    none
  else
    some { st with group_members := st.group_members ++
        [{ group_id := groupId, user_id := userId, role := role }] }

/-- `UPDATE group_join_requests SET status = ? WHERE id = ?` (groupModel.js:153-159):
note the absence of any guard on the current status. -/
def updateJoinRequestStatus (requestId : Nat) (status : ReqStatus) (st : Store) : Store :=
  let rows := st.group_join_requests.map
    (fun r => if r.id == requestId then { r with status := status } else r)
  { st with group_join_requests := rows }

end GroupModel

namespace MessageModel

/-- `MessageModel.create` (messageModel.js:11-21): INSERT a row with fresh id,
`delivered_at` and `seen_at` NULL. -/
def create (chatId senderId : Nat) (messageType : String)
    (content file_path : Option String) (duration : Option Nat) (now : Nat)
    (st : Store) : Msg × Store :=
  let msg : Msg :=
    { id := st.nextMessageId, chat_id := chatId, sender_id := senderId,
      message_type := messageType, content := content, file_path := file_path,
      duration := duration, created_at := now, delivered_at := none, seen_at := none }
  (msg, { st with messages := st.messages ++ [msg],
                  nextMessageId := st.nextMessageId + 1 })

end MessageModel

namespace TeamModel

def findById (id : Nat) (st : Store) : Option Team :=
  st.teams.find? (fun t => t.id == id)

/-- `SELECT COUNT(*) FROM team_members WHERE team_id = ?` (TeamModel.getMemberCount). -/
def getMemberCount (teamId : Nat) (st : Store) : Nat :=
  (st.team_members.filter (fun m => m.team_id == teamId)).length

def isMember (teamId userId : Nat) (st : Store) : Bool :=
  st.team_members.any (fun m => m.team_id == teamId && m.user_id == userId)

def getUserRole (teamId userId : Nat) (st : Store) : Option String :=
  (st.team_members.find? (fun m => m.team_id == teamId && m.user_id == userId)).map
    (fun m => m.role)

/-- `INSERT INTO team_members … ON DUPLICATE KEY UPDATE role` (TeamModel.addMember). -/
def addMember (teamId userId : Nat) (role : String) (st : Store) : Store :=
  if st.team_members.any (fun m => m.team_id == teamId && m.user_id == userId) then
    let rows := st.team_members.map
      (fun m => if m.team_id == teamId && m.user_id == userId then
          { m with role := role } else m)
    { st with team_members := rows }
  else
    { st with team_members := st.team_members ++
        [{ team_id := teamId, user_id := userId, role := role }] }

end TeamModel

namespace InviteModel

/-- `accepted_at IS NULL AND expires_at > NOW()`. -/
def pendingInvite (teamId now : Nat) (i : TeamInvite) : Bool :=
  i.team_id == teamId && i.accepted_at == none && now < i.expires_at

/-- `InviteModel.countPendingByTeamId` (inviteModel.js:104-111). -/
def countPendingByTeamId (teamId now : Nat) (st : Store) : Nat :=
  (st.team_invites.filter (pendingInvite teamId now)).length

def findByToken (token : Nat) (st : Store) : Option TeamInvite :=
  st.team_invites.find? (fun i => i.token == token)

def findPendingByEmail (teamId : Nat) (email : String) (now : Nat) (st : Store) :
    Option TeamInvite :=
  st.team_invites.find?
    (fun i => i.team_id == teamId && i.email == email
      && i.accepted_at == none && now < i.expires_at)

inductive TokenCheck where
  | invalid
  | alreadyUsed
  | expired
  | valid (invite : TeamInvite)
deriving DecidableEq

/-- `InviteModel.validateToken` (inviteModel.js:116-132). -/
def validateToken (token now : Nat) (st : Store) : TokenCheck :=
  match findByToken token st with
  | none => TokenCheck.invalid
  | some invite =>
      if invite.accepted_at != none then TokenCheck.alreadyUsed
      else if invite.expires_at < now then TokenCheck.expired
      else TokenCheck.valid invite

/-- `UPDATE team_invites SET accepted_at = CURRENT_TIMESTAMP WHERE token = ? AND
accepted_at IS NULL` (inviteModel.js:137-144). -/
def accept (token now : Nat) (st : Store) : Store :=
  let rows := st.team_invites.map
    (fun i => if i.token == token && i.accepted_at == none then
        { i with accepted_at := some now } else i)
  { st with team_invites := rows }

/-- The UPDATE branch of `InviteModel.create`, applied to one row. -/
def refreshInviteRow (existingId token expiresAt invitedBy : Nat) (role : String)
    (i : TeamInvite) : TeamInvite :=
  if i.id == existingId then
    { i with token := token, expires_at := expiresAt,
             invited_by := invitedBy, role := role }
  else i

/-- `InviteModel.create` (inviteModel.js:12-56): refresh an existing pending
invite for the same team and email, otherwise insert a new row. -/
def create (teamId : Nat) (email : String) (role : String) (invitedBy : Nat)
    (token now expiresAt : Nat) (st : Store) : Nat × Store :=
  match findPendingByEmail teamId email now st with
  | some existing =>
      let rows := st.team_invites.map
        (refreshInviteRow existing.id token expiresAt invitedBy role)
      (existing.id, { st with team_invites := rows })
  | none =>
      let inviteId := st.nextInviteId
      let row : TeamInvite :=
        { id := inviteId, team_id := teamId, email := email, token := token,
          role := role, invited_by := invitedBy, accepted_at := none,
          expires_at := expiresAt }
      (inviteId,
       { st with team_invites := st.team_invites ++ [row],
                 nextInviteId := inviteId + 1 })

end InviteModel

end Clinx

/-! ### Controllers -/

namespace Clinx

/-- Outcome of `ChatController.markAsSeen` (chatController.js:239-281). -/
inductive MarkSeenRes where
  | notParticipant
  | ok (count : Nat)
deriving DecidableEq

namespace ChatController

/-- `ChatController.markAsSeen`: reject non-participants (403, no effects); else
run the bulk UPDATE and emit `message_seen` to the user room of every
participant of the chat. -/
def markAsSeen (chatId userId now : Nat) (st : Store) :
    MarkSeenRes × Store × List Emit :=
  if ChatModel.isParticipant chatId userId st then
    let count := MessageModel.markAsSeenAffected chatId userId st.messages
    let st1 := { st with messages := MessageModel.markAsSeen chatId userId now st.messages }
    let emits := (ChatModel.getParticipants chatId st1).map
      (fun uid => { room := Room.user uid, event := "message_seen" : Emit })
    (MarkSeenRes.ok count, st1, emits)
  else
    (MarkSeenRes.notParticipant, st, [])

end ChatController

/-- Outcome of `ChatController.sendPrivateMessage` (chatController.js:81-161). -/
inductive PrivateSendRes where
  | receiverRequired
  | contentRequired
  | receiverNotFound
  | sent (chatId messageId : Nat)
deriving DecidableEq

namespace ChatController

/-- `ChatController.sendPrivateMessage`: validate input, get-or-create the
private chat, INSERT the message, emit `receive_message` and a notification to
room `user:<receiverId>`. -/
def sendPrivateMessage (senderId receiverId : Nat)
    (content file_path : Option String) (messageType : String)
    (duration : Option Nat) (now : Nat) (st : Store) :
    PrivateSendRes × Store × List Emit :=
  if receiverId == 0 then (PrivateSendRes.receiverRequired, st, [])
  else if content == none && file_path == none then
    (PrivateSendRes.contentRequired, st, [])
  else
    match UserModel.findById receiverId st with
    | none => (PrivateSendRes.receiverNotFound, st, [])
    | some _ =>
        let cres := ChatModel.getOrCreatePrivateChat senderId receiverId st
        let mres := MessageModel.create cres.1 senderId messageType content
          file_path duration now cres.2
        let st2 := { mres.2 with notifications := mres.2.notifications ++
            [{ user_id := receiverId, ntype := "message" }] }
        (PrivateSendRes.sent cres.1 mres.1.id, st2,
         [{ room := Room.user receiverId, event := "receive_message" },
          { room := Room.user receiverId, event := "notification" }])

end ChatController

/-- Outcome of `GroupController.sendMessage` (groupController.js:475-543). -/
inductive GroupSendRes where
  | notMember
  | sendForbidden
  | contentRequired
  | chatNotFound
  | sent (messageId : Nat)
deriving DecidableEq

namespace GroupController

/-- `GroupController.sendMessage`: membership check, then the permission check
`permissions && !permissions.send_message && membership.role === 'member'`,
then input validation, chat lookup, INSERT and a `receive_message` emit to the
group room. -/
def sendMessage (groupId userId : Nat) (content file_path : Option String)
    (messageType : String) (duration : Option Nat) (now : Nat) (st : Store) :
    GroupSendRes × Store × List Emit :=
  match GroupModel.isMember groupId userId st with
  | none => (GroupSendRes.notMember, st, [])
  | some membership =>
      let forbidden :=
        match GroupModel.getPermissions groupId st with
        | some permissions => !permissions.send_message && membership.role == Role.member
        | none => false
      if forbidden then (GroupSendRes.sendForbidden, st, [])
      else if content == none && file_path == none then
        (GroupSendRes.contentRequired, st, [])
      else
        match ChatModel.findByGroupId groupId st with
        | none => (GroupSendRes.chatNotFound, st, [])
        | some chat =>
            let mres := MessageModel.create chat.id userId messageType content
              file_path duration now st
            (GroupSendRes.sent mres.1.id, mres.2,
             [{ room := Room.group groupId, event := "receive_message" }])

end GroupController

/-- Outcome of `GroupController.approveJoinRequest` (src/unnamed/part_005:989-1014);
`serverError` is the catch-all 500 reached when `addMember` throws on the
`unique_member` key. -/
inductive ApproveRes where
  | adminOnly
  | requestNotFound
  | serverError
  | approved
deriving DecidableEq

/-- Outcome of `GroupController.rejectJoinRequest` (src/unnamed/part_005:1020-1034). -/
inductive RejectRes where
  | adminOnly
  | rejected
deriving DecidableEq

namespace GroupController

/-- `GroupController.approveJoinRequest`: admin check, fetch the request by
`id` and `group_id` (its current status is NOT consulted), `addMember` with role
member, set status to approved, and notify the requester. `addMember` is the
first mutation, so when it throws `ER_DUP_ENTRY` (requester already a member)
the surrounding try/catch returns 500 with nothing persisted — the status is
not written either. -/
def approveJoinRequest (groupId requestId actorId : Nat) (st : Store) :
    ApproveRes × Store :=
  if !(GroupModel.isAdmin groupId actorId st) then (ApproveRes.adminOnly, st)
  else
    match st.group_join_requests.find?
        (fun r => r.id == requestId && r.group_id == groupId) with
    | none => (ApproveRes.requestNotFound, st)
    | some reqRow =>
        match GroupModel.addMember groupId reqRow.user_id Role.member st with
        | none => (ApproveRes.serverError, st)
        | some st1 =>
            let st2 := GroupModel.updateJoinRequestStatus requestId ReqStatus.approved st1
            let st3 := { st2 with notifications := st2.notifications ++
                [{ user_id := reqRow.user_id, ntype := "group_join_approved" }] }
            (ApproveRes.approved, st3)

/-- `GroupController.rejectJoinRequest`: admin check, then the status UPDATE —
the request row is not even fetched first. -/
def rejectJoinRequest (groupId requestId actorId : Nat) (st : Store) :
    RejectRes × Store :=
  if !(GroupModel.isAdmin groupId actorId st) then (RejectRes.adminOnly, st)
  else (RejectRes.rejected,
        GroupModel.updateJoinRequestStatus requestId ReqStatus.rejected st)

end GroupController

/-- Outcome of `InviteController.create` (src/unnamed/part_005:15-140). -/
inductive InviteCreateRes where
  | invalidEmail
  | teamMissing
  | limitReached (current pending total limit : Nat)
  | alreadyMember
  | created (inviteId : Nat)
deriving DecidableEq

/-- Outcome of `InviteController.accept` (src/unnamed/part_005:244-345). -/
inductive InviteAcceptRes where
  | invalidToken
  | alreadyUsed
  | expired
  | emailMismatch
  | alreadyMemberOk
  | teamMissing
  | limitReached (current limit : Nat)
  | joined (teamId : Nat)
deriving DecidableEq

namespace InviteController

/-- `InviteController.create`: email validation, then the capacity gate
`memberCount + pendingInviteCount >= team.member_limit` (reported with current
members, pending invites, total and limit), then already-a-member check, role
resolution and invite creation. -/
def create (teamId : Nat) (email : String) (roleReq : String) (invitedBy : Nat)
    (token now expiresAt : Nat) (st : Store) : InviteCreateRes × Store :=
  if !(email.toList.contains '@') then (InviteCreateRes.invalidEmail, st)
  else
    match TeamModel.findById teamId st with
    | none => (InviteCreateRes.teamMissing, st)
    | some team =>
        let memberCount := TeamModel.getMemberCount teamId st
        let pendingInviteCount := InviteModel.countPendingByTeamId teamId now st
        let totalCommitted := memberCount + pendingInviteCount
        if team.member_limit ≤ totalCommitted then
          (InviteCreateRes.limitReached memberCount pendingInviteCount
            totalCommitted team.member_limit, st)
        else
          let isExistingMember :=
            match UserModel.findByEmail email st with
            | some existingUser => TeamModel.isMember teamId existingUser.id st
            | none => false
          if isExistingMember then (InviteCreateRes.alreadyMember, st)
          else
            let inviterRole := TeamModel.getUserRole teamId invitedBy st
            let inviteRole :=
              if roleReq == "admin"
                  && (inviterRole == some "owner" || inviterRole == some "admin") then
                "admin"
              else "member"
            let cres := InviteModel.create teamId email inviteRole invitedBy
              token now expiresAt st
            (InviteCreateRes.created cres.1, cres.2)

/-- `InviteController.accept`: token validation, email match, early success for
existing members; otherwise the capacity gate `memberCount >= team.member_limit`
(which burns the invite but adds no member), else add the member, mark the
invite accepted and notify the team owner. -/
def accept (token userId : Nat) (userEmail : String) (now : Nat) (st : Store) :
    InviteAcceptRes × Store :=
  match InviteModel.validateToken token now st with
  | InviteModel.TokenCheck.invalid => (InviteAcceptRes.invalidToken, st)
  | InviteModel.TokenCheck.alreadyUsed => (InviteAcceptRes.alreadyUsed, st)
  | InviteModel.TokenCheck.expired => (InviteAcceptRes.expired, st)
  | InviteModel.TokenCheck.valid invite =>
      if userEmail != invite.email then (InviteAcceptRes.emailMismatch, st)
      else if TeamModel.isMember invite.team_id userId st then
        (InviteAcceptRes.alreadyMemberOk, InviteModel.accept token now st)
      else
        match TeamModel.findById invite.team_id st with
        | none => (InviteAcceptRes.teamMissing, st)
        | some team =>
            let memberCount := TeamModel.getMemberCount invite.team_id st
            if team.member_limit ≤ memberCount then
              (InviteAcceptRes.limitReached memberCount team.member_limit,
               InviteModel.accept token now st)
            else
              let st1 := TeamModel.addMember invite.team_id userId invite.role st
              let st2 := InviteModel.accept token now st1
              let st3 := { st2 with notifications := st2.notifications ++
                  [{ user_id := team.owner_id, ntype := "team_join" }] }
              (InviteAcceptRes.joined invite.team_id, st3)

end InviteController

end Clinx

/-! ### Claim theorems over the controllers -/

namespace Clinx

/-- A concrete store exercising the controllers: private chat 1 between users 10
and 20; group 5 with admin 1, moderator 2, member 3, `send_message` disabled and
group chat 9; an already-approved join request 4 from user 8; team 7 (limit 5, 4
members, 1 pending invite) and team 9 (limit 2, full, 1 pending invite). -/
def demoStore : Store :=
  { users := [⟨1, "a@x.com"⟩, ⟨2, "b@x.com"⟩, ⟨3, "c@x.com"⟩, ⟨8, "f@x.com"⟩],
    chats := [⟨1, CType.privateChat, none⟩, ⟨9, CType.groupChat, some 5⟩],
    chat_participants := [⟨1, 10⟩, ⟨1, 20⟩],
    messages := [],
    group_members := [⟨5, 1, Role.admin⟩, ⟨5, 2, Role.moderator⟩, ⟨5, 3, Role.member⟩],
    group_permissions := [⟨5, true, false, true, true, false, false, false, false, true⟩],
    group_join_requests := [⟨4, 5, 8, ReqStatus.approved⟩],
    teams := [⟨7, 1, 5⟩, ⟨9, 1, 2⟩],
    team_members := [⟨7, 1, "owner"⟩, ⟨7, 2, "member"⟩, ⟨7, 3, "member"⟩,
      ⟨7, 4, "member"⟩, ⟨9, 1, "owner"⟩, ⟨9, 2, "member"⟩],
    team_invites := [⟨11, 7, "e@x.com", 55, "member", 1, none, 100⟩,
      ⟨12, 9, "f@x.com", 66, "member", 1, none, 100⟩],
    notifications := [],
    nextChatId := 30, nextMessageId := 40, nextInviteId := 13 }

/-- C4: membership gates writes — an actor with no participant edge is rejected
with an authorization error by both the group send-message and the chat
mark-seen mutations, with the store returned untouched and nothing emitted. -/
theorem c4_membership_gates_writes (st : Store) (groupId chatId actor now : Nat)
    (content file_path : Option String) (messageType : String)
    (duration : Option Nat) :
    (GroupModel.isMember groupId actor st = none →
      GroupController.sendMessage groupId actor content file_path messageType
          duration now st = (GroupSendRes.notMember, st, [])) ∧
    (ChatModel.isParticipant chatId actor st = false →
      ChatController.markAsSeen chatId actor now st
        = (MarkSeenRes.notParticipant, st, [])) := by
  constructor
  · intro h
    unfold GroupController.sendMessage
    rw [h]
  · intro h
    unfold ChatController.markAsSeen
    rw [h]
    simp

/-- Witness for C4: user 99 is neither in group 5 nor in chat 1 of the
demonstration store, so both writes are rejected without side effects. -/
theorem c4_membership_gates_writes_witness :
    GroupController.sendMessage 5 99 (some "hi") none "text" none 50 demoStore
      = (GroupSendRes.notMember, demoStore, []) ∧
    ChatController.markAsSeen 1 99 50 demoStore
      = (MarkSeenRes.notParticipant, demoStore, []) :=
  ⟨(c4_membership_gates_writes demoStore 5 1 99 50 (some "hi") none "text" none).1
      (by decide),
   (c4_membership_gates_writes demoStore 5 1 99 50 (some "hi") none "text" none).2
      (by decide)⟩

/-- C6: when a group's `send_message` permission is disabled, an admin or
moderator participant still sends successfully (a message row is appended),
while a participant whose role is member is rejected with an authorization
error and no side effects. -/
theorem c6_role_overrides_send_permission (st : Store) (g u now : Nat)
    (mem : GroupMember) (p : GroupPermissions) (chat : Chat) (s : String)
    (file_path : Option String) (messageType : String) (duration : Option Nat)
    (hm : GroupModel.isMember g u st = some mem)
    (hp : GroupModel.getPermissions g st = some p)
    (hsend : p.send_message = false)
    (hchat : ChatModel.findByGroupId g st = some chat) :
    ((mem.role = Role.admin ∨ mem.role = Role.moderator) →
      (GroupController.sendMessage g u (some s) file_path messageType duration now st).1
          = GroupSendRes.sent st.nextMessageId ∧
      (GroupController.sendMessage g u (some s) file_path messageType duration now st).2.1.messages
          = st.messages
            ++ [(MessageModel.create chat.id u messageType (some s) file_path duration now st).1]) ∧
    (mem.role = Role.member →
      GroupController.sendMessage g u (some s) file_path messageType duration now st
        = (GroupSendRes.sendForbidden, st, [])) := by
  constructor
  · intro hrole
    have hforb : (!p.send_message && mem.role == Role.member) = false := by
      rcases hrole with h | h <;> simp [h]
    simp only [GroupController.sendMessage, hm, hp, hforb, hchat]
    simp [MessageModel.create]
  · intro hrole
    have hforb : (!p.send_message && mem.role == Role.member) = true := by
      simp [hsend, hrole]
    simp only [GroupController.sendMessage, hm, hp, hforb]
    simp

/-- Witness for C6: in the demonstration store group 5 has `send_message`
disabled; admin user 1 still gets a message created while member user 3 is
rejected. -/
theorem c6_role_overrides_send_permission_witness :
    (GroupController.sendMessage 5 1 (some "hi") none "text" none 50 demoStore).1
      = GroupSendRes.sent 40 ∧
    GroupController.sendMessage 5 3 (some "hi") none "text" none 50 demoStore
      = (GroupSendRes.sendForbidden, demoStore, []) :=
  ⟨((c6_role_overrides_send_permission demoStore 5 1 50 ⟨5, 1, Role.admin⟩
      ⟨5, true, false, true, true, false, false, false, false, true⟩
      ⟨9, CType.groupChat, some 5⟩ "hi" none "text" none
      (by decide) (by decide) rfl (by decide)).1 (Or.inl rfl)).1,
   (c6_role_overrides_send_permission demoStore 5 3 50 ⟨5, 3, Role.member⟩
      ⟨5, true, false, true, true, false, false, false, false, true⟩
      ⟨9, CType.groupChat, some 5⟩ "hi" none "text" none
      (by decide) (by decide) rfl (by decide)).2 rfl⟩

/-- C8 counterexample: viewer 10 marks chat 1 seen; the controller emits a
`message_seen` event to room `user:10` — the viewer's own user room, which every
session of user 10 has auto-joined — so the originator is not excluded. -/
theorem c8_seen_event_to_originator_counterexample :
    ({ room := Room.user 10, event := "message_seen" } : Emit)
      ∈ (ChatController.markAsSeen 1 10 50 demoStore).2.2 := by
  decide

/-- C8 amended: on the HTTP mark-seen path the `message_seen` event is emitted
to the user room of every participant of the chat — including the originator's
own user room; only the socket-level handlers exclude the originating socket. -/
theorem c8_seen_event_rooms (st : Store) (chatId userId now : Nat)
    (h : ChatModel.isParticipant chatId userId st = true) :
    (ChatController.markAsSeen chatId userId now st).2.2
      = (ChatModel.getParticipants chatId st).map
          (fun uid => { room := Room.user uid, event := "message_seen" }) := by
  unfold ChatController.markAsSeen
  rw [h]
  simp
  rfl

/-- Witness for C8 amended: in the demonstration store the mark-seen emit list
is exactly the two participant user rooms, the originator's first. -/
theorem c8_seen_event_rooms_witness :
    (ChatController.markAsSeen 1 10 50 demoStore).2.2
      = [{ room := Room.user 10, event := "message_seen" },
         { room := Room.user 20, event := "message_seen" }] := by
  rw [c8_seen_event_rooms demoStore 1 10 50 (by decide)]
  decide

/-- C9 counterexample: join request 4 of group 5 already has status approved
(and user 8 currently holds no member edge), yet the admin's approve call
succeeds again and appends a member edge — the approved state is not terminal
in the code. -/
theorem c9_terminal_states_revisited_counterexample :
    (GroupController.approveJoinRequest 5 4 1 demoStore).1 = ApproveRes.approved ∧
    (GroupController.approveJoinRequest 5 4 1 demoStore).2.group_members.length
      = demoStore.group_members.length + 1 := by
  constructor
  · decide
  · decide

/-- C9 amended: the current status of a join request is never consulted, so the
terminal states can be revisited. When a group admin approves a request that
exists for the group and the requesting user holds no member edge, a member
participant edge is appended and the status is set to approved — even if the
request was already approved or rejected; when the requester is already a
member, the INSERT violates the `unique_member` key and the call fails with a
server error, persisting nothing (the status is still not guarded, merely
unreached). -/
theorem c9_approve_join_request (st : Store) (g reqId actor : Nat)
    (r : JoinRequest)
    (ha : GroupModel.isAdmin g actor st = true)
    (hr : st.group_join_requests.find? (fun q => q.id == reqId && q.group_id == g)
            = some r) :
    (st.group_members.any (fun m => m.group_id == g && m.user_id == r.user_id) = false →
      (GroupController.approveJoinRequest g reqId actor st).1 = ApproveRes.approved ∧
      (GroupController.approveJoinRequest g reqId actor st).2.group_members
        = st.group_members
          ++ [{ group_id := g, user_id := r.user_id, role := Role.member }] ∧
      (∀ i q, st.group_join_requests.get? i = some q → q.id = reqId →
        (GroupController.approveJoinRequest g reqId actor st).2.group_join_requests.get? i
          = some { q with status := ReqStatus.approved })) ∧
    (st.group_members.any (fun m => m.group_id == g && m.user_id == r.user_id) = true →
      GroupController.approveJoinRequest g reqId actor st
        = (ApproveRes.serverError, st)) := by
  constructor
  · intro hnm
    have hadd : GroupModel.addMember g r.user_id Role.member st
        = some { st with group_members := st.group_members
            ++ [{ group_id := g, user_id := r.user_id, role := Role.member }] } := by
      simp [GroupModel.addMember, hnm]
    simp only [GroupController.approveJoinRequest, ha, Bool.not_true, if_false, hr, hadd]
    refine ⟨rfl, rfl, ?_⟩
    intro i q hi hq
    simp only [GroupModel.updateJoinRequestStatus]
    simp only [List.get?_eq_getElem?] at hi
    simp [List.getElem?_map, hi, hq]
  · intro hm
    have hadd : GroupModel.addMember g r.user_id Role.member st = none := by
      simp [GroupModel.addMember, hm]
    simp only [GroupController.approveJoinRequest, ha, Bool.not_true, if_false, hr, hadd]
    rfl

/-- Witness for C9 amended: approving the (already approved) request 4 of group
5 succeeds — user 8 holds no member edge — and appends the member edge. -/
theorem c9_approve_join_request_witness :
    (GroupController.approveJoinRequest 5 4 1 demoStore).2.group_members
      = demoStore.group_members ++ [{ group_id := 5, user_id := 8, role := Role.member }] :=
  ((c9_approve_join_request demoStore 5 4 1 ⟨4, 5, 8, ReqStatus.approved⟩
    (by decide) (by decide)).1 (by decide)).2.1

end Clinx

namespace Clinx

/-- C7: capacity enforcement counts pending invites toward the team member cap.
Creating an invite fails with a capacity error — reporting current members,
pending invites, their total and the limit — whenever members + pending invites
is at or above `member_limit`; and accepting a pending invite whose team is
already at or above the limit fails with a capacity error and adds no team
member (the invite itself is burned to block retries, as the code comments). -/
theorem c7_capacity_counts_pending_invites (st : Store)
    (teamId invitedBy token now expiresAt userId : Nat)
    (email userEmail roleReq : String) (teamA teamB : Team) (invite : TeamInvite) :
    (email.toList.contains '@' = true →
      TeamModel.findById teamId st = some teamA →
      teamA.member_limit ≤ TeamModel.getMemberCount teamId st
          + InviteModel.countPendingByTeamId teamId now st →
      InviteController.create teamId email roleReq invitedBy token now expiresAt st
        = (InviteCreateRes.limitReached (TeamModel.getMemberCount teamId st)
            (InviteModel.countPendingByTeamId teamId now st)
            (TeamModel.getMemberCount teamId st
              + InviteModel.countPendingByTeamId teamId now st)
            teamA.member_limit, st)) ∧
    (InviteModel.findByToken token st = some invite →
      invite.accepted_at = none →
      ¬ invite.expires_at < now →
      userEmail = invite.email →
      TeamModel.isMember invite.team_id userId st = false →
      TeamModel.findById invite.team_id st = some teamB →
      teamB.member_limit ≤ TeamModel.getMemberCount invite.team_id st →
      InviteController.accept token userId userEmail now st
        = (InviteAcceptRes.limitReached (TeamModel.getMemberCount invite.team_id st)
            teamB.member_limit, InviteModel.accept token now st) ∧
      (InviteController.accept token userId userEmail now st).2.team_members
        = st.team_members) := by
  constructor
  · intro hmail hteam hcap
    simp only [InviteController.create, hmail, Bool.not_true, Bool.false_eq_true,
      if_false, hteam]
    rw [if_pos hcap]
  · intro hinv hacc hexp hmatch hnotmem hteam hcap
    have hvalid : InviteModel.validateToken token now st
        = InviteModel.TokenCheck.valid invite := by
      simp only [InviteModel.validateToken, hinv]
      simp [hacc, hexp]
    have hne : (userEmail != invite.email) = false := by
      simp [hmatch]
    have hres : InviteController.accept token userId userEmail now st
        = (InviteAcceptRes.limitReached (TeamModel.getMemberCount invite.team_id st)
            teamB.member_limit, InviteModel.accept token now st) := by
      simp only [InviteController.accept, hvalid, hne, Bool.false_eq_true,
        if_false, hnotmem, hteam]
      rw [if_pos hcap]
    refine ⟨hres, ?_⟩
    rw [hres]
    rfl

/-- Witness for C7: in the demonstration store, team 7 (limit 5) has 4 members
and 1 pending invite, so a new invite is refused with the counts; team 9
(limit 2) is full, so accepting its pending invite (token 66) by non-member
user 8 is refused and the member table is unchanged. -/
theorem c7_capacity_counts_pending_invites_witness :
    InviteController.create 7 "e@x.com" "member" 1 77 50 218 demoStore
      = (InviteCreateRes.limitReached 4 1 5 5, demoStore) ∧
    (InviteController.accept 66 8 "f@x.com" 50 demoStore).2.team_members
      = demoStore.team_members :=
  ⟨(c7_capacity_counts_pending_invites demoStore 7 1 77 50 218 8
      "e@x.com" "f@x.com" "member" ⟨7, 1, 5⟩ ⟨9, 1, 2⟩
      ⟨12, 9, "f@x.com", 66, "member", 1, none, 100⟩).1
      (by decide) (by decide) (by decide),
   ((c7_capacity_counts_pending_invites demoStore 7 1 66 50 218 8
      "e@x.com" "f@x.com" "member" ⟨7, 1, 5⟩ ⟨9, 1, 2⟩
      ⟨12, 9, "f@x.com", 66, "member", 1, none, 100⟩).2
      (by decide) rfl (by decide) rfl (by decide) (by decide) (by decide)).2⟩

end Clinx

namespace Clinx

theorem find?_append_none {α : Type} (p : α → Bool) (l1 l2 : List α)
    (h : l1.find? p = none) : (l1 ++ l2).find? p = l2.find? p := by
  induction l1 with
  | nil => rfl
  | cons hd tl ih =>
      have hp : p hd = false := by
        have := List.find?_eq_none.mp h hd (List.mem_cons_self hd tl)
        simpa using this
      have htl : tl.find? p = none := by
        rw [List.find?_cons_of_neg _ (by simp [hp])] at h
        exact h
      rw [List.cons_append, List.find?_cons_of_neg _ (by simp [hp])]
      exact ih htl

theorem privateChatPred_swap (u1 u2 : Nat) (st : Store) (c : Chat) :
    ChatModel.privateChatPred u1 u2 st c = ChatModel.privateChatPred u2 u1 st c := by
  unfold ChatModel.privateChatPred
  exact Bool.and_right_comm _ _ _

theorem findPrivateChat_swap (u1 u2 : Nat) (st : Store) :
    ChatModel.findPrivateChat u1 u2 st = ChatModel.findPrivateChat u2 u1 st := by
  unfold ChatModel.findPrivateChat
  have h : ChatModel.privateChatPred u1 u2 st = ChatModel.privateChatPred u2 u1 st :=
    funext (fun c => privateChatPred_swap u1 u2 st c)
  rw [h]

/-- After `createPrivateChat a b`, the lookup for the pair — in either order —
finds exactly the newly inserted chat, provided no matching chat existed and all
existing ids are below the auto-increment counter. -/
theorem findPrivateChat_create (st : Store) (a b u1 u2 : Nat)
    (hnone : ChatModel.findPrivateChat u1 u2 st = none)
    (hfresh : ∀ c ∈ st.chats, c.id < st.nextChatId)
    (hu : (u1 = a ∧ u2 = b) ∨ (u1 = b ∧ u2 = a)) :
    ChatModel.findPrivateChat u1 u2 (ChatModel.createPrivateChat a b st).2
      = some st.nextChatId := by
  have hchats : (ChatModel.createPrivateChat a b st).2.chats
      = st.chats ++ [{ id := st.nextChatId, ctype := CType.privateChat, group_id := none }] :=
    rfl
  have hps : (ChatModel.createPrivateChat a b st).2.chat_participants
      = st.chat_participants
        ++ [{ chat_id := st.nextChatId, user_id := a },
            { chat_id := st.nextChatId, user_id := b }] := rfl
  have hnone' : st.chats.find? (ChatModel.privateChatPred u1 u2 st) = none := by
    unfold ChatModel.findPrivateChat at hnone
    exact Option.map_eq_none'.mp hnone
  have hold : st.chats.find?
      (ChatModel.privateChatPred u1 u2 (ChatModel.createPrivateChat a b st).2) = none := by
    apply List.find?_eq_none.mpr
    intro c hc
    have hlt : c.id < st.nextChatId := hfresh c hc
    have hne : (st.nextChatId == c.id) = false := by
      simp only [beq_eq_false_iff_ne, ne_eq]
      exact Nat.ne_of_gt hlt
    have hpred : ChatModel.privateChatPred u1 u2 (ChatModel.createPrivateChat a b st).2 c
        = ChatModel.privateChatPred u1 u2 st c := by
      unfold ChatModel.privateChatPred
      rw [hps, List.any_append, List.any_append]
      simp [hne]
    rw [hpred]
    have := List.find?_eq_none.mp hnone' c hc
    simpa using this
  have hp0 : ChatModel.privateChatPred u1 u2 (ChatModel.createPrivateChat a b st).2
      { id := st.nextChatId, ctype := CType.privateChat, group_id := none } = true := by
    unfold ChatModel.privateChatPred
    rw [hps]
    rcases hu with ⟨h1, h2⟩ | ⟨h1, h2⟩ <;> subst h1 <;> subst h2 <;>
      simp [List.any_append]
  unfold ChatModel.findPrivateChat
  rw [hchats, find?_append_none _ _ _ hold, List.find?_cons_of_pos _ hp0]
  rfl

/-- C5: a DirectChat is unique per unordered pair and created lazily — starting
from a store with no private chat between `a` and `b` (and all ids below the
auto-increment counters), the first `getOrCreatePrivateChat` creates one chat
with exactly the participants `[a, b]`; calling again in either argument order
returns the same chat id with the store unchanged, and a subsequent
`sendPrivateMessage` reuses that same conversation id. -/
theorem c5_direct_chat_unique_per_pair (st : Store) (a b : Nat)
    (hnone : ChatModel.findPrivateChat a b st = none)
    (hfresh : ∀ c ∈ st.chats, c.id < st.nextChatId)
    (hpfresh : ∀ p ∈ st.chat_participants, p.chat_id < st.nextChatId) :
    (ChatModel.getOrCreatePrivateChat a b st).1 = st.nextChatId ∧
    ChatModel.getParticipants st.nextChatId (ChatModel.getOrCreatePrivateChat a b st).2
      = [a, b] ∧
    (ChatModel.getOrCreatePrivateChat a b st).2.chats.length = st.chats.length + 1 ∧
    ChatModel.getOrCreatePrivateChat a b (ChatModel.getOrCreatePrivateChat a b st).2
      = (st.nextChatId, (ChatModel.getOrCreatePrivateChat a b st).2) ∧
    ChatModel.getOrCreatePrivateChat b a (ChatModel.getOrCreatePrivateChat a b st).2
      = (st.nextChatId, (ChatModel.getOrCreatePrivateChat a b st).2) ∧
    (∀ u s mt dur now2,
      UserModel.findById b (ChatModel.getOrCreatePrivateChat a b st).2 = some u →
      (b == 0) = false →
      (ChatController.sendPrivateMessage a b (some s) none mt dur now2
          (ChatModel.getOrCreatePrivateChat a b st).2).1
        = PrivateSendRes.sent st.nextChatId
            ((ChatModel.getOrCreatePrivateChat a b st).2.nextMessageId)) := by
  have hco : ChatModel.getOrCreatePrivateChat a b st = ChatModel.createPrivateChat a b st := by
    unfold ChatModel.getOrCreatePrivateChat
    rw [hnone]
  have hnoneBA : ChatModel.findPrivateChat b a st = none := by
    rw [findPrivateChat_swap]
    exact hnone
  have hreAB : ChatModel.getOrCreatePrivateChat a b (ChatModel.createPrivateChat a b st).2
      = (st.nextChatId, (ChatModel.createPrivateChat a b st).2) := by
    unfold ChatModel.getOrCreatePrivateChat
    rw [findPrivateChat_create st a b a b hnone hfresh (Or.inl ⟨rfl, rfl⟩)]
  have hreBA : ChatModel.getOrCreatePrivateChat b a (ChatModel.createPrivateChat a b st).2
      = (st.nextChatId, (ChatModel.createPrivateChat a b st).2) := by
    unfold ChatModel.getOrCreatePrivateChat
    rw [findPrivateChat_create st a b b a hnoneBA hfresh (Or.inr ⟨rfl, rfl⟩)]
  simp only [hco]
  refine ⟨rfl, ?_, ?_, hreAB, hreBA, ?_⟩
  · have hps : (ChatModel.createPrivateChat a b st).2.chat_participants
        = st.chat_participants
          ++ [{ chat_id := st.nextChatId, user_id := a },
              { chat_id := st.nextChatId, user_id := b }] := rfl
    unfold ChatModel.getParticipants
    rw [hps, List.filter_append]
    have hold : st.chat_participants.filter
        (fun p => p.chat_id == st.nextChatId) = [] := by
      apply List.filter_eq_nil_iff.mpr
      intro p hp
      have := hpfresh p hp
      simp [Nat.ne_of_lt this]
    rw [hold]
    simp
  · have hchats : (ChatModel.createPrivateChat a b st).2.chats
        = st.chats ++ [{ id := st.nextChatId, ctype := CType.privateChat, group_id := none }] :=
      rfl
    rw [hchats]
    simp
  · intro u s mt dur now2 hu hb0
    unfold ChatController.sendPrivateMessage
    rw [hb0, hu]
    simp only [Bool.false_eq_true, if_false, hreAB]
    rfl

/-- Witness for C5: no private chat between users 100 and 200 exists in the
demonstration store, so the first get-or-create returns the fresh id 30. -/
theorem c5_direct_chat_unique_per_pair_witness :
    (ChatModel.getOrCreatePrivateChat 100 200 demoStore).1 = demoStore.nextChatId :=
  (c5_direct_chat_unique_per_pair demoStore 100 200 (by decide) (by decide)
    (by decide)).1

end Clinx
